import Mathlib

/-!
Shallow embedding of `graphene_django_filter` (files `conf.py` and
`input_types.py`) together with proofs of the specification claims.

`conf.py` is modelled by explicit state passing: the `Settings` object holds
the optional cached user mapping (`_user_settings`), the host environment
(Django settings and the database connection vendor) is an explicit `Env`
record, and attribute lookup (`Settings.__getattr__`) returns an
`Except` mirroring the raised `AttributeError`.

`input_types.py` is modelled as declarative data: each graphene class body is
a list of named attributes; an attribute is either a mounted input field or a
plain tuple (the latter arises in the source from a trailing comma after an
`InputField(...)` call, which graphene's field collection ignores).
-/

namespace GrapheneDjangoFilter

/-- A setting value: the Python annotation is `Union[str, bool]`. -/
inductive SettingValue where
  | S : String → SettingValue
  | B : Bool → SettingValue
  deriving DecidableEq, Repr

/-- A user-settings mapping (a Python `dict`), as an association list. -/
abbrev UserMap := List (String × SettingValue)

/-- Lookup in a Python `dict` modelled as an association list built from a
dict literal: a later binding of the same key wins. -/
def dictLookup {α : Type} (l : List (String × α)) (k : String) : Option α :=
  (l.reverse.find? (fun p => p.1 == k)).map (fun p => p.2)

/-- Membership test for a Python `dict` modelled as an association list. -/
def dictContains {α : Type} (l : List (String × α)) (k : String) : Bool :=
  l.any (fun p => p.1 == k)

/-- The host environment: the database connection vendor and the Django
settings module attributes read by `conf.py`. -/
structure Env where
  vendor : String
  hasTrigramExtensionFlag : Bool
  grapheneDjangoFilter : Option UserMap
  deriving Repr

/-- `get_fixed_settings`: fixed settings computed from the environment. -/
def get_fixed_settings (env : Env) : List (String × Bool) :=
  [ ("IS_POSTGRESQL", env.vendor == "postgresql"),
    ("HAS_TRIGRAM_EXTENSION", env.hasTrigramExtensionFlag) ]

/-- `DEFAULT_SETTINGS` from `conf.py`. -/
def DEFAULT_SETTINGS : List (String × String) :=
  [ ("FILTER_KEY", "filter"),
    ("AND_KEY", "and"),
    ("OR_KEY", "or"),
    ("NOT_KEY", "not") ]

/-- `DJANGO_SETTINGS_KEY` from `conf.py`. -/
def DJANGO_SETTINGS_KEY : String := "GRAPHENE_DJANGO_FILTER"

/-- The `Settings` object: its only mutable state is the optional cached
user-settings mapping set by `__init__` and by the `user_settings` property. -/
structure Settings where
  mutable_user_settings : Option UserMap
  deriving DecidableEq, Repr

/-- The `user_settings` property: on first access with an empty cache it
reads `getattr(django_settings, DJANGO_SETTINGS_KEY, {})` and caches the
result; afterwards it returns the cache.  Returns the mapping together with
the (possibly updated) object state. -/
def Settings.user_settings (env : Env) (st : Settings) : UserMap × Settings :=
  match st.mutable_user_settings with
  | some m => (m, st)
  | none =>
      let m := env.grapheneDjangoFilter.getD []
      (m, ⟨some m⟩)

/-- `Settings.__getattr__`: fixed settings win, then the user mapping, then
the static defaults; any other name raises `AttributeError`.  The fixed
settings are passed in because the source computes them once at import time
(`FIXED_SETTINGS = get_fixed_settings()`). -/
def Settings.getattr (fixed : List (String × Bool)) (env : Env)
    (st : Settings) (name : String) : Except String (SettingValue × Settings) :=
  if !(dictContains fixed name) && !(dictContains DEFAULT_SETTINGS name) then
    .error ("Invalid Graphene setting: `" ++ name ++ "`")
  else if dictContains fixed name then
    .ok (.B ((dictLookup fixed name).getD false), st)
  else
    let (us, st') := st.user_settings env
    if dictContains us name then
      .ok ((dictLookup us name).getD (.S ""), st')
    else
      .ok (.S ((dictLookup DEFAULT_SETTINGS name).getD ""), st')

/-- The module-level `settings = Settings(None)` instance. -/
def initialSettings : Settings := ⟨none⟩

/-- `reload_settings`: the `setting_changed` receiver.  When the changed key
is the library's namespace key it replaces the global instance with
`Settings(value)`; otherwise it leaves it untouched. -/
def reload_settings (setting : String) (value : Option UserMap)
    (st : Settings) : Settings :=
  if setting == DJANGO_SETTINGS_KEY then ⟨value⟩ else st

/-! ## `input_types.py` -/

/-- A GraphQL type reference appearing in an input-field declaration. -/
inductive GType where
  | string : GType
  | boolean : GType
  | float : GType
  | int : GType
  | enumRef : String → GType
  | inputObjectRef : String → GType
  | list : GType → GType
  | nonNull : GType → GType
  deriving DecidableEq, Repr

/-- A default value carried by an input-field declaration. -/
inductive GDefault where
  | bool : Bool → GDefault
  | enumMember : String → GDefault
  deriving DecidableEq, Repr

/-- A mounted graphene input field (`graphene.InputField(...)` or a mounted
scalar such as `graphene.String(...)`). -/
structure InputFieldDecl where
  type : GType
  required : Bool := false
  default_value : Option GDefault := none
  deriving DecidableEq, Repr

/-- An attribute of a graphene class body: either a mounted field, or a plain
Python tuple around a field (produced in the source by a trailing comma after
the `InputField(...)` call). -/
inductive ClassAttr where
  | field : InputFieldDecl → ClassAttr
  | tuple : InputFieldDecl → ClassAttr
  deriving DecidableEq, Repr

/-- Graphene's field collection over a class body: only mounted fields become
input fields; plain tuples are left as ordinary class attributes. -/
def yank_fields (attrs : List (String × ClassAttr)) :
    List (String × InputFieldDecl) :=
  attrs.filterMap (fun p =>
    match p.2 with
    | .field f => some (p.1, f)
    | .tuple _ => none)

/-- The declared input-field names of a graphene class body. -/
def fieldNames (attrs : List (String × ClassAttr)) : List String :=
  (yank_fields attrs).map (fun p => p.1)

/-- `SearchConfigInputType` class body. -/
def SearchConfigInputType : List (String × ClassAttr) :=
  [ ("value", .field { type := .string }),
    ("is_field", .field { type := .boolean, default_value := some (.bool false) }) ]

/-- `SearchVectorWeight` enum members. -/
def SearchVectorWeight : List (String × String) :=
  [("A", "A"), ("B", "B"), ("C", "C"), ("D", "D")]

/-- `SearchVectorInputType` class body.  In the source the `config` line ends
with a comma, so the attribute is a one-element tuple, not a mounted field. -/
def SearchVectorInputType : List (String × ClassAttr) :=
  [ ("fields", .field { type := .list (.nonNull .string), required := true }),
    ("config", .tuple { type := .inputObjectRef "SearchConfigInputType" }),
    ("weight", .field { type := .enumRef "SearchVectorWeight" }) ]

/-- `SearchQueryType` enum members. -/
def SearchQueryType : List (String × String) :=
  [("PLAIN", "plain"), ("PHRASE", "phrase"), ("RAW", "raw"),
   ("WEBSEARCH", "websearch")]

/-- The shape of a field of the dynamically built `SearchQueryInputType`:
the required `value` string, the optional `config` input object, or a list
of the type itself (`graphene.List(lambda: search_query_input_type)`). -/
inductive SQFieldType where
  | requiredString : SQFieldType
  | config : SQFieldType
  | listSelf : SQFieldType
  deriving DecidableEq, Repr

/-- `create_search_query_input_type`, parametrised by the values that
`settings.AND_KEY`, `settings.OR_KEY` and `settings.NOT_KEY` resolve to when
the factory runs.  The result is the attribute dict handed to `type(...)`,
in source order; as a Python dict literal, a later duplicate key overrides an
earlier one (`dictLookup` is last-wins). -/
def create_search_query_input_type (and_key or_key not_key : String) :
    List (String × SQFieldType) :=
  [ ("value", .requiredString),
    ("config", .config),
    (and_key, .listSelf),
    (or_key, .listSelf),
    (not_key, .listSelf) ]

/-- A search-query input value: a set of string-valued entries together with
a set of list-valued entries (nested sub-queries), keyed by field name.  The
optional `config` object is never required, so values never need to supply
it. -/
inductive SQVal where
  | mk : List (String × String) → List (String × List SQVal) → SQVal
  deriving Repr

mutual

/-- Structural type-checking of a search-query value against the field dict
produced by the factory: every string entry must sit at a field whose
effective type is the required string, every list entry must sit at a field
whose effective type is a list of the type itself (with each element
well-typed recursively), and every field whose effective type is the
required string must be supplied. -/
def SQVal.wellTyped (fs : List (String × SQFieldType)) : SQVal → Bool
  | .mk strs lsts =>
      strs.all (fun p => dictLookup fs p.1 == some .requiredString) &&
      SQVal.wellTypedLists fs lsts &&
      fs.all (fun p =>
        !(dictLookup fs p.1 == some .requiredString) ||
          strs.any (fun q => q.1 == p.1))

/-- Type-check the named list entries of a value. -/
def SQVal.wellTypedLists (fs : List (String × SQFieldType)) :
    List (String × List SQVal) → Bool
  | [] => true
  | (k, vs) :: rest =>
      (dictLookup fs k == some .listSelf) &&
      SQVal.wellTypedVals fs vs &&
      SQVal.wellTypedLists fs rest

/-- Type-check each element of a nested sub-query list. -/
def SQVal.wellTypedVals (fs : List (String × SQFieldType)) :
    List SQVal → Bool
  | [] => true
  | v :: vs => SQVal.wellTyped fs v && SQVal.wellTypedVals fs vs

end

mutual

/-- Nesting depth of a search-query value (a leaf has depth 1). -/
def SQVal.depth : SQVal → Nat
  | .mk _ lsts => 1 + SQVal.depthLists lsts

/-- Greatest nesting depth among named list entries. -/
def SQVal.depthLists : List (String × List SQVal) → Nat
  | [] => 0
  | (_, vs) :: rest => max (SQVal.depthVals vs) (SQVal.depthLists rest)

/-- Greatest nesting depth among elements of a sub-query list. -/
def SQVal.depthVals : List SQVal → Nat
  | [] => 0
  | v :: vs => max (SQVal.depth v) (SQVal.depthVals vs)

end

/-- `FloatLookups` class body. -/
def FloatLookups : List (String × ClassAttr) :=
  [ ("exact", .field { type := .float }),
    ("gt", .field { type := .float }),
    ("gte", .field { type := .float }),
    ("lt", .field { type := .float }),
    ("lte", .field { type := .float }) ]

/-- `SearchQueryFilterInputType` class body. -/
def SearchQueryFilterInputType : List (String × ClassAttr) :=
  [ ("vector", .field { type := .inputObjectRef "SearchVectorInputType", required := true }),
    ("query", .field { type := .inputObjectRef "SearchQueryInputType", required := true }) ]

/-- `SearchRankFilterInputType` class body.  In the source the `weights`
assignment ends with a comma, so the attribute is a one-element tuple, not a
mounted field. -/
def SearchRankFilterInputType : List (String × ClassAttr) :=
  [ ("vector", .field { type := .inputObjectRef "SearchVectorInputType", required := true }),
    ("query", .field { type := .inputObjectRef "SearchQueryInputType", required := true }),
    ("lookups", .field { type := .inputObjectRef "FloatLookups", required := true }),
    ("weights", .tuple { type := .list .float }),
    ("cover_density", .field { type := .boolean }),
    ("normalization", .field { type := .int }) ]

/-- `TrigramSearchKind` enum members. -/
def TrigramSearchKind : List (String × String) :=
  [("SIMILARITY", "similarity"), ("DISTANCE", "distance")]

/-- `TrigramFilterInputType` class body. -/
def TrigramFilterInputType : List (String × ClassAttr) :=
  [ ("kind", .field { type := .enumRef "TrigramSearchKind",
                      default_value := some (.enumMember "SIMILARITY") }),
    ("lookups", .field { type := .inputObjectRef "FloatLookups", required := true }),
    ("value", .field { type := .string, required := true }) ]

/-! ## Helper lemmas -/

/-- A successful dict lookup implies dict membership. -/
theorem dictContains_of_dictLookup {α : Type} {l : List (String × α)} {k : String}
    {v : α} (h : dictLookup l k = some v) : dictContains l k = true := by
  unfold dictLookup at h
  obtain ⟨p, hfind, rfl⟩ := Option.map_eq_some'.mp h
  have hpk := List.find?_some hfind
  have hmem : p ∈ l := List.mem_reverse.mp (List.mem_of_find?_eq_some hfind)
  exact List.any_eq_true.mpr ⟨p, hmem, hpk⟩

/-- Characterisation of lookup in the attribute dict built by the factory:
the last binding of a duplicated key wins, so each combinator key always
resolves to a list of the type itself. -/
theorem dictLookup_create (a o n k : String) :
    dictLookup (create_search_query_input_type a o n) k =
      if n == k then some .listSelf
      else if o == k then some .listSelf
      else if a == k then some .listSelf
      else if "config" == k then some .config
      else if "value" == k then some .requiredString
      else none := by
  unfold create_search_query_input_type dictLookup
  cases hn : n == k <;> cases ho : o == k <;> cases ha : a == k <;>
    cases hc : "config" == k <;> cases hv : "value" == k <;>
      simp [List.find?, hn, ho, ha, hc, hv]

/-- Only the `value` key can resolve to the required string field. -/
theorem lookup_create_requiredString {a o n k : String}
    (h : dictLookup (create_search_query_input_type a o n) k
          = some .requiredString) : k = "value" := by
  rw [dictLookup_create] at h
  split_ifs at h <;> simp_all

/-! ## Claim theorems -/

/-- C1: `get(name)` returns the fixed value when `name` is a fixed key; else
the user-supplied value when `name` is a default key present in the active
user-configuration mapping; else the static default.  A user value overrides
the static default but never a fixed value. -/
theorem getattr_resolution (fixed : List (String × Bool)) (env : Env)
    (st : Settings) (name : String) :
    (∀ b, dictLookup fixed name = some b →
      Settings.getattr fixed env st name = .ok (.B b, st)) ∧
    (dictContains fixed name = false →
      dictContains DEFAULT_SETTINGS name = true →
      ∀ v, dictLookup (st.user_settings env).1 name = some v →
        Settings.getattr fixed env st name = .ok (v, (st.user_settings env).2)) ∧
    (dictContains fixed name = false →
      dictContains DEFAULT_SETTINGS name = true →
      dictContains (st.user_settings env).1 name = false →
      ∀ d, dictLookup DEFAULT_SETTINGS name = some d →
        Settings.getattr fixed env st name = .ok (.S d, (st.user_settings env).2)) := by
  refine ⟨?_, ?_, ?_⟩
  · intro b hb
    have hc := dictContains_of_dictLookup hb
    simp [Settings.getattr, hc, hb]
  · intro hf hd v hv
    have hc := dictContains_of_dictLookup hv
    rcases hus : st.user_settings env with ⟨us, st'⟩
    rw [hus] at hv hc
    simp only at hv hc
    simp [Settings.getattr, hf, hd, hus, hc, hv]
  · intro hf hd hm d hdef
    rcases hus : st.user_settings env with ⟨us, st'⟩
    rw [hus] at hm
    simp only at hm
    simp [Settings.getattr, hf, hd, hus, hm, hdef]

/-- C1 witness: with an environment supplying `AND_KEY := "custom"`, the
three branches of the resolution theorem fire at concrete inputs. -/
theorem getattr_resolution_witness :
    Settings.getattr (get_fixed_settings ⟨"postgresql", true, some [("AND_KEY", .S "custom")]⟩)
        ⟨"postgresql", true, some [("AND_KEY", .S "custom")]⟩ ⟨none⟩ "IS_POSTGRESQL"
      = .ok (.B true, ⟨none⟩) ∧
    Settings.getattr (get_fixed_settings ⟨"postgresql", true, some [("AND_KEY", .S "custom")]⟩)
        ⟨"postgresql", true, some [("AND_KEY", .S "custom")]⟩ ⟨none⟩ "AND_KEY"
      = .ok (.S "custom", ⟨some [("AND_KEY", .S "custom")]⟩) ∧
    Settings.getattr (get_fixed_settings ⟨"postgresql", true, some [("AND_KEY", .S "custom")]⟩)
        ⟨"postgresql", true, some [("AND_KEY", .S "custom")]⟩ ⟨none⟩ "OR_KEY"
      = .ok (.S "or", ⟨some [("AND_KEY", .S "custom")]⟩) :=
  ⟨(getattr_resolution _ _ _ "IS_POSTGRESQL").1 true (by decide),
   (getattr_resolution _ _ _ "AND_KEY").2.1 (by decide) (by decide) _ (by decide),
   (getattr_resolution _ _ _ "OR_KEY").2.2 (by decide) (by decide) (by decide) _ (by decide)⟩

/-- C8: for a name that is neither a fixed key nor a default key, `get`
fails with an `AttributeError` whose message names the offending key,
regardless of the user-configuration mapping. -/
theorem getattr_unknown_name_errors (fixed : List (String × Bool)) (env : Env)
    (st : Settings) (name : String)
    (hf : dictContains fixed name = false)
    (hd : dictContains DEFAULT_SETTINGS name = false) :
    Settings.getattr fixed env st name
      = .error ("Invalid Graphene setting: `" ++ name ++ "`") := by
  simp [Settings.getattr, hf, hd]

/-- C8 witness: the unknown name `FOO` errors at a concrete settings state,
even with a user mapping that binds `FOO`. -/
theorem getattr_unknown_name_errors_witness :
    Settings.getattr (get_fixed_settings ⟨"postgresql", true, none⟩)
        ⟨"postgresql", true, none⟩ ⟨some [("FOO", .S "bar")]⟩ "FOO"
      = .error "Invalid Graphene setting: `FOO`" :=
  getattr_unknown_name_errors _ _ _ "FOO" (by decide) (by decide)

/-- C7: a `setting_changed` notification for a key other than the library's
namespace key leaves the settings instance unchanged, and every subsequent
lookup is unaffected. -/
theorem reload_settings_other_key (setting : String) (value : Option UserMap)
    (st : Settings) (h : setting ≠ DJANGO_SETTINGS_KEY) :
    reload_settings setting value st = st ∧
    ∀ fixed env name,
      Settings.getattr fixed env (reload_settings setting value st) name
        = Settings.getattr fixed env st name := by
  have hb : (setting == DJANGO_SETTINGS_KEY) = false := by
    simpa using h
  constructor
  · simp [reload_settings, hb]
  · intro fixed env name
    simp [reload_settings, hb]

/-- C7 witness: a notification for key `OTHER` with a rich value leaves a
concrete settings instance and a concrete lookup untouched. -/
theorem reload_settings_other_key_witness :
    reload_settings "OTHER" (some [("AND_KEY", .S "all_of")]) ⟨some []⟩ = ⟨some []⟩ ∧
    Settings.getattr (get_fixed_settings ⟨"postgresql", true, none⟩)
        ⟨"postgresql", true, none⟩
        (reload_settings "OTHER" (some [("AND_KEY", .S "all_of")]) ⟨some []⟩) "AND_KEY"
      = Settings.getattr (get_fixed_settings ⟨"postgresql", true, none⟩)
        ⟨"postgresql", true, none⟩ ⟨some []⟩ "AND_KEY" :=
  ⟨(reload_settings_other_key "OTHER" _ _ (by decide)).1,
   (reload_settings_other_key "OTHER" _ _ (by decide)).2 _ _ "AND_KEY"⟩

/-- C6: a notification for the library's namespace key replaces the settings
instance wholesale with `Settings(value)`; the new instance is seeded from
the notification's value when one is supplied, and resolves to the empty
mapping when the value is cleared (`None`) and the namespace key is gone
from the host configuration; afterwards `get` on an overridden default key
returns the new user value. -/
theorem reload_settings_matching_key (fixed : List (String × Bool)) (env : Env)
    (value : Option UserMap) (st : Settings) :
    (reload_settings DJANGO_SETTINGS_KEY value st = ⟨value⟩) ∧
    (∀ m, value = some m →
      Settings.user_settings env ⟨value⟩ = (m, ⟨value⟩)) ∧
    (value = none → env.grapheneDjangoFilter = none →
      Settings.user_settings env ⟨value⟩ = ([], ⟨some []⟩)) ∧
    (∀ m k v, value = some m →
      dictContains fixed k = false →
      dictContains DEFAULT_SETTINGS k = true →
      dictLookup m k = some v →
      Settings.getattr fixed env (reload_settings DJANGO_SETTINGS_KEY value st) k
        = .ok (v, ⟨value⟩)) := by
  refine ⟨by simp [reload_settings], ?_, ?_, ?_⟩
  · intro m hm
    subst hm
    simp [Settings.user_settings]
  · intro hv he
    subst hv
    simp [Settings.user_settings, he]
  · intro m k v hm hf hd hv
    subst hm
    have hc := dictContains_of_dictLookup hv
    simp [reload_settings, Settings.getattr, Settings.user_settings, hf, hd, hc, hv]

/-- C6 witness: firing the event with the namespace key and the mapping
`{AND_KEY: "all_of"}` makes a subsequent `get("AND_KEY")` return
`"all_of"`; firing it with a cleared value resets to the empty mapping. -/
theorem reload_settings_matching_key_witness :
    reload_settings DJANGO_SETTINGS_KEY (some [("AND_KEY", .S "all_of")]) ⟨some []⟩
      = ⟨some [("AND_KEY", .S "all_of")]⟩ ∧
    Settings.user_settings ⟨"postgresql", true, none⟩ ⟨none⟩ = ([], ⟨some []⟩) ∧
    Settings.getattr (get_fixed_settings ⟨"postgresql", true, none⟩)
        ⟨"postgresql", true, none⟩
        (reload_settings DJANGO_SETTINGS_KEY (some [("AND_KEY", .S "all_of")]) ⟨some []⟩)
        "AND_KEY"
      = .ok (.S "all_of", ⟨some [("AND_KEY", .S "all_of")]⟩) :=
  ⟨(reload_settings_matching_key (get_fixed_settings ⟨"postgresql", true, none⟩)
      ⟨"postgresql", true, none⟩ _ ⟨some []⟩).1,
   (reload_settings_matching_key (get_fixed_settings ⟨"postgresql", true, none⟩)
      ⟨"postgresql", true, none⟩ none ⟨some []⟩).2.2.1 rfl rfl,
   (reload_settings_matching_key (get_fixed_settings ⟨"postgresql", true, none⟩)
      ⟨"postgresql", true, none⟩ _ ⟨some []⟩).2.2.2
     [("AND_KEY", .S "all_of")] "AND_KEY" (.S "all_of") rfl
     (by decide) (by decide) (by decide)⟩

/-- C10: a `Settings(None)` instance reads the host configuration (default:
the empty mapping) at the first `get` of a non-fixed name and caches it; a
fixed-name access does not populate the cache; once the cache is populated,
lookup results no longer depend on the host environment. -/
theorem user_settings_cached_after_first_access (fixed : List (String × Bool))
    (env env' : Env) (name : String) :
    (dictContains fixed name = false →
      dictContains DEFAULT_SETTINGS name = true →
      ∃ v, Settings.getattr fixed env ⟨none⟩ name
        = .ok (v, ⟨some (env.grapheneDjangoFilter.getD [])⟩)) ∧
    (dictContains fixed name = true →
      ∃ v, Settings.getattr fixed env ⟨none⟩ name = .ok (v, ⟨none⟩)) ∧
    (∀ m : UserMap,
      Settings.getattr fixed env ⟨some m⟩ name
        = Settings.getattr fixed env' ⟨some m⟩ name) := by
  refine ⟨?_, ?_, ?_⟩
  · intro hf hd
    by_cases hm : dictContains (env.grapheneDjangoFilter.getD []) name = true
    · exact ⟨(dictLookup (env.grapheneDjangoFilter.getD []) name).getD (.S ""),
        by simp [Settings.getattr, Settings.user_settings, hf, hd, hm]⟩
    · rw [Bool.not_eq_true] at hm
      exact ⟨.S ((dictLookup DEFAULT_SETTINGS name).getD ""),
        by simp [Settings.getattr, Settings.user_settings, hf, hd, hm]⟩
  · intro hc
    exact ⟨.B ((dictLookup fixed name).getD false), by simp [Settings.getattr, hc]⟩
  · intro m
    simp [Settings.getattr, Settings.user_settings]

/-- C10 witness: the first non-fixed access against a host configuration
binding `AND_KEY` caches that mapping; a fixed access caches nothing; a
cached instance answers identically under two different environments. -/
theorem user_settings_cached_after_first_access_witness :
    (∃ v, Settings.getattr (get_fixed_settings ⟨"postgresql", true, some [("AND_KEY", .S "x")]⟩)
        ⟨"postgresql", true, some [("AND_KEY", .S "x")]⟩ ⟨none⟩ "AND_KEY"
      = .ok (v, ⟨some [("AND_KEY", .S "x")]⟩)) ∧
    (∃ v, Settings.getattr (get_fixed_settings ⟨"postgresql", true, some [("AND_KEY", .S "x")]⟩)
        ⟨"postgresql", true, some [("AND_KEY", .S "x")]⟩ ⟨none⟩ "IS_POSTGRESQL"
      = .ok (v, ⟨none⟩)) ∧
    Settings.getattr (get_fixed_settings ⟨"postgresql", true, some [("AND_KEY", .S "x")]⟩)
        ⟨"postgresql", true, some [("AND_KEY", .S "x")]⟩ ⟨some []⟩ "AND_KEY"
      = Settings.getattr (get_fixed_settings ⟨"postgresql", true, some [("AND_KEY", .S "x")]⟩)
        ⟨"postgresql", true, some [("AND_KEY", .S "y")]⟩ ⟨some []⟩ "AND_KEY" :=
  ⟨(user_settings_cached_after_first_access _ _ ⟨"postgresql", true, some [("AND_KEY", .S "x")]⟩
      "AND_KEY").1 (by decide) (by decide),
   (user_settings_cached_after_first_access _ _ ⟨"postgresql", true, some [("AND_KEY", .S "x")]⟩
      "IS_POSTGRESQL").2.1 (by decide),
   (user_settings_cached_after_first_access _ _ _ "AND_KEY").2.2 []⟩

/-- C3 counter-evidence: in the source, the `config` assignment of
`SearchVectorInputType` ends with a trailing comma, so the class attribute
is a one-element tuple and graphene does not collect it as an input field.
The type therefore exposes exactly the fields `fields` (a required list of
non-null strings) and `weight` (an optional enum), with no `config` field. -/
theorem searchVector_config_not_collected :
    yank_fields SearchVectorInputType
      = [ ("fields", { type := .list (.nonNull .string), required := true }),
          ("weight", { type := .enumRef "SearchVectorWeight" }) ] ∧
    fieldNames SearchVectorInputType = ["fields", "weight"] ∧
    dictLookup SearchVectorInputType "config"
      = some (.tuple { type := .inputObjectRef "SearchConfigInputType" }) := by
  refine ⟨rfl, rfl, rfl⟩

/-- C4 counter-evidence: in the source, the `weights` assignment of
`SearchRankFilterInputType` ends with a trailing comma, so the class
attribute is a one-element tuple and graphene does not collect it as an
input field.  The type therefore exposes exactly the fields `vector`,
`query`, `lookups` (all required), `cover_density` and `normalization`,
with no `weights` field. -/
theorem searchRank_weights_not_collected :
    yank_fields SearchRankFilterInputType
      = [ ("vector", { type := .inputObjectRef "SearchVectorInputType", required := true }),
          ("query", { type := .inputObjectRef "SearchQueryInputType", required := true }),
          ("lookups", { type := .inputObjectRef "FloatLookups", required := true }),
          ("cover_density", { type := .boolean }),
          ("normalization", { type := .int }) ] ∧
    fieldNames SearchRankFilterInputType
      = ["vector", "query", "lookups", "cover_density", "normalization"] ∧
    dictLookup SearchRankFilterInputType "weights"
      = some (.tuple { type := .list .float }) := by
  refine ⟨rfl, rfl, rfl⟩

/-- C9: `TrigramFilterInputType` exposes exactly a `kind` field of the
`TrigramSearchKind` enum defaulting to `SIMILARITY`, a required `lookups`
field of `FloatLookups`, and a required string `value` field. -/
theorem trigramFilterInputType_shape :
    yank_fields TrigramFilterInputType
      = [ ("kind", { type := .enumRef "TrigramSearchKind",
                     default_value := some (.enumMember "SIMILARITY") }),
          ("lookups", { type := .inputObjectRef "FloatLookups", required := true }),
          ("value", { type := .string, required := true }) ] ∧
    dictLookup TrigramSearchKind "SIMILARITY" = some "similarity" := by
  refine ⟨rfl, rfl⟩

/-- C5: with default settings (no user overrides) the keys `AND_KEY`,
`OR_KEY` and `NOT_KEY` resolve to `and`, `or` and `not`, and the factory's
attribute dict exposes exactly the top-level field set
`{value, config, and, or, not}`. -/
theorem default_query_input_type_field_set :
    Settings.getattr (get_fixed_settings ⟨"postgresql", false, none⟩)
        ⟨"postgresql", false, none⟩ initialSettings "AND_KEY"
      = .ok (.S "and", ⟨some []⟩) ∧
    Settings.getattr (get_fixed_settings ⟨"postgresql", false, none⟩)
        ⟨"postgresql", false, none⟩ initialSettings "OR_KEY"
      = .ok (.S "or", ⟨some []⟩) ∧
    Settings.getattr (get_fixed_settings ⟨"postgresql", false, none⟩)
        ⟨"postgresql", false, none⟩ initialSettings "NOT_KEY"
      = .ok (.S "not", ⟨some []⟩) ∧
    (create_search_query_input_type "and" "or" "not").map Prod.fst
      = ["value", "config", "and", "or", "not"] ∧
    ((create_search_query_input_type "and" "or" "not").map Prod.fst).toFinset
      = {"value", "config", "and", "or", "not"} := by
  refine ⟨rfl, rfl, rfl, rfl, by decide⟩

/-- The field named by the first combinator key is a list of the type
itself, whatever the three keys are. -/
theorem lookup_create_first (a o n : String) :
    dictLookup (create_search_query_input_type a o n) a = some .listSelf := by
  rw [dictLookup_create]
  cases hn : n == a <;> cases ho : o == a <;> simp [hn, ho]

/-- The field named by the second combinator key is a list of the type
itself, whatever the three keys are. -/
theorem lookup_create_second (a o n : String) :
    dictLookup (create_search_query_input_type a o n) o = some .listSelf := by
  rw [dictLookup_create]
  cases hn : n == o <;> simp [hn]

/-- The field named by the third combinator key is a list of the type
itself, whatever the three keys are. -/
theorem lookup_create_third (a o n : String) :
    dictLookup (create_search_query_input_type a o n) n = some .listSelf := by
  rw [dictLookup_create]
  simp

/-- C2: for every configuration of `AND_KEY`/`OR_KEY`/`NOT_KEY` active when
the factory runs, the resulting type's combinator fields are named by the
resolved keys and each accepts a list of the type itself, and a nested
search-query value of depth 3 type-checks structurally against it. -/
theorem create_search_query_input_type_selfref (a o n : String) :
    (dictLookup (create_search_query_input_type a o n) a = some .listSelf ∧
     dictLookup (create_search_query_input_type a o n) o = some .listSelf ∧
     dictLookup (create_search_query_input_type a o n) n = some .listSelf) ∧
    ∃ v : SQVal,
      SQVal.wellTyped (create_search_query_input_type a o n) v = true ∧
      3 ≤ SQVal.depth v := by
  refine ⟨⟨lookup_create_first a o n, lookup_create_second a o n,
    lookup_create_third a o n⟩, ?_⟩
  have hk := lookup_create_third a o n
  by_cases hv : dictLookup (create_search_query_input_type a o n) "value"
      = some .requiredString
  · refine ⟨SQVal.mk [("value", "x")]
      [(n, [SQVal.mk [("value", "x")]
        [(n, [SQVal.mk [("value", "x")] []])]])], ?_, ?_⟩
    · simp only [SQVal.wellTyped, SQVal.wellTypedLists, SQVal.wellTypedVals,
        hk, hv]
      simp [hv]
      intro k b hmem
      by_cases hr : dictLookup (create_search_query_input_type a o n) k
          = some .requiredString
      · exact Or.inr (lookup_create_requiredString hr).symm
      · exact Or.inl hr
    · simp [SQVal.depth, SQVal.depthLists, SQVal.depthVals]
  · refine ⟨SQVal.mk [] [(n, [SQVal.mk [] [(n, [SQVal.mk [] []])]])], ?_, ?_⟩
    · simp [SQVal.wellTyped, SQVal.wellTypedLists, SQVal.wellTypedVals, hk]
      intro k b hmem hr
      exact hv (by rwa [lookup_create_requiredString hr] at hr)
    · simp [SQVal.depth, SQVal.depthLists, SQVal.depthVals]

end GrapheneDjangoFilter
